import Mathlib

/-!
Verification of the Spot Samachar backend against its specification.

The definitions below are a shallow embedding of the JavaScript source:
  * `src/lib/otp-store.js`       — one-time-code store and per-address rate limiter
  * `src/utils/location.utils.js`— haversine distance and nearest-police-station resolver
  * `src/routes/admin.routes.js` — moderation decision and citizen-report review handlers
  * `src/routes/incident.routes.js` — public feed, single fetch, and incident creation
  * `src/middleware/rateLimit.middleware.js` — daily post quota
  * `src/config/index.js`        — configuration constants (defaults, env unset)

Times are modelled as natural-number milliseconds (`Date.now()`), database
tables as Lean lists, and the in-memory `Map`s of the OTP module as functions
`String → Option _`.  A thrown `AppError` is modelled as `Except.error`; the
JavaScript handlers throw before performing any write, so an error result
leaves the store untouched by construction.
-/

/-! ## One-time-code store (`src/lib/otp-store.js`) -/

/-- `const OTP_EXPIRY = 5 * 60 * 1000` (milliseconds). -/
def OTP_EXPIRY : Nat := 5 * 60 * 1000

/-- `const MAX_ATTEMPTS = 3`. -/
def MAX_ATTEMPTS : Nat := 3

/-- `const RATE_LIMIT_WINDOW = 60 * 60 * 1000` (milliseconds). -/
def RATE_LIMIT_WINDOW : Nat := 60 * 60 * 1000

/-- `const MAX_REQUESTS_PER_HOUR = 5`. -/
def MAX_REQUESTS_PER_HOUR : Nat := 5

/-- One record of the `otpStore` map: `{ otp, attempts, createdAt, expiresAt }`. -/
structure OtpRecord where
  otp : String
  attempts : Nat
  createdAt : Nat
  expiresAt : Nat
  deriving DecidableEq, Repr

/-- The `otpStore` map, keyed by email address. -/
def OtpStore : Type := String → Option OtpRecord

/-- `otpStore.delete(email)`. -/
def OtpStore.erase (s : OtpStore) (email : String) : OtpStore :=
  fun e => if e = email then none else s e

/-- `otpStore.set(email, r)`. -/
def OtpStore.insert (s : OtpStore) (email : String) (r : OtpRecord) : OtpStore :=
  fun e => if e = email then some r else s e

/-- `storeOTP(email, otp)`: unconditionally overwrite the record for `email`
with the new code, zero attempts, creation time `now` and expiry
`now + OTP_EXPIRY`. -/
def storeOTP (s : OtpStore) (email otp : String) (now : Nat) : OtpStore :=
  s.insert email ⟨otp, 0, now, now + OTP_EXPIRY⟩

/-- Result object of `verifyOTP`: `{ success, message }`. -/
structure OtpResult where
  success : Bool
  message : String
  deriving DecidableEq, Repr

/-- `verifyOTP(email, inputOTP)`.  Returns the result together with the store
after the call (the JavaScript function mutates the module-level map).
Branches in source order: missing record; expired record (deleted);
attempts already at the ceiling (deleted); then `stored.attempts++` and
the value comparison; a match deletes the record. -/
def verifyOTP (s : OtpStore) (email inputOTP : String) (now : Nat) :
    OtpResult × OtpStore :=
  match s email with
  | none => (⟨false, "OTP not found or expired"⟩, s)
  | some stored =>
    if stored.expiresAt < now then
      (⟨false, "OTP expired"⟩, s.erase email)
    else if MAX_ATTEMPTS ≤ stored.attempts then
      (⟨false, "Maximum attempts exceeded"⟩, s.erase email)
    else
      let s' := s.insert email { stored with attempts := stored.attempts + 1 }
      if stored.otp ≠ inputOTP then
        (⟨false, "Invalid OTP"⟩, s')
      else
        (⟨true, "OTP verified successfully"⟩, s'.erase email)

/-! ## Per-address code-request rate limiter (`checkRateLimit`) -/

/-- One record of the `rateLimitStore` map: `{ count, resetAt }`. -/
structure RateData where
  count : Nat
  resetAt : Nat
  deriving DecidableEq, Repr

/-- The `rateLimitStore` map, keyed by email address. -/
def RateStore : Type := String → Option RateData

/-- `rateLimitStore.set(email, d)`. -/
def RateStore.insert (s : RateStore) (email : String) (d : RateData) : RateStore :=
  fun e => if e = email then some d else s e

/-- Result of `checkRateLimit`: allowed, or denied with a retry-after hint in
minutes (`Math.ceil((resetAt - now) / 60000)`). -/
structure RateResult where
  allowed : Bool
  retryAfterMinutes : Option Nat
  deriving DecidableEq, Repr

/-- `Math.ceil(x / 60000)` on a natural number of milliseconds. -/
def ceilMinutes (ms : Nat) : Nat := (ms + 60000 - 1) / 60000

/-- `checkRateLimit(email)`: first use (or a call strictly after `resetAt`)
starts a fresh window with count 1; at the ceiling the call is denied without
touching the counter; otherwise the counter is incremented. -/
def checkRateLimit (s : RateStore) (email : String) (now : Nat) :
    RateResult × RateStore :=
  match s email with
  | none =>
    (⟨true, none⟩, s.insert email ⟨1, now + RATE_LIMIT_WINDOW⟩)
  | some rateData =>
    if rateData.resetAt < now then
      (⟨true, none⟩, s.insert email ⟨1, now + RATE_LIMIT_WINDOW⟩)
    else if MAX_REQUESTS_PER_HOUR ≤ rateData.count then
      (⟨false, some (ceilMinutes (rateData.resetAt - now))⟩, s)
    else
      (⟨true, none⟩, s.insert email { rateData with count := rateData.count + 1 })

/-! ## Geospatial resolver (`src/utils/location.utils.js`) -/

noncomputable section

/-- `toRad(degrees) = degrees * (Math.PI / 180)`. -/
def toRad (degrees : ℝ) : ℝ := degrees * (Real.pi / 180)

/-- `Math.atan2(y, x)` on real numbers (standard two-argument arctangent). -/
def atan2 (y x : ℝ) : ℝ :=
  if 0 < x then Real.arctan (y / x)
  else if x < 0 then
    (if 0 ≤ y then Real.arctan (y / x) + Real.pi else Real.arctan (y / x) - Real.pi)
  else
    (if 0 < y then Real.pi / 2 else if y < 0 then -(Real.pi / 2) else 0)

/-- `calculateDistance(lat1, lon1, lat2, lon2)`: haversine great-circle
distance with Earth radius `R = 6371` km, inputs in degrees. -/
def calculateDistance (lat1 lon1 lat2 lon2 : ℝ) : ℝ :=
  let R : ℝ := 6371
  let dLat := toRad (lat2 - lat1)
  let dLon := toRad (lon2 - lon1)
  let a := Real.sin (dLat / 2) * Real.sin (dLat / 2) +
      Real.cos (toRad lat1) * Real.cos (toRad lat2) *
      Real.sin (dLon / 2) * Real.sin (dLon / 2)
  let c := 2 * atan2 (Real.sqrt a) (Real.sqrt (1 - a))
  R * c

end

/-- A row of the `police_stations` table (fields used by the resolver and the
admin/incident handlers). -/
structure PoliceStation where
  id : String
  name : String
  latitude : ℝ
  longitude : ℝ
  isActive : Bool

/-- Loop body of `findNearestPoliceStation`: scan the remaining stations,
replacing the current best only on a strictly smaller distance (so the first
station attaining the minimum wins). -/
noncomputable def nearestScan (latitude longitude : ℝ)
    (best : PoliceStation) (bestDist : ℝ) :
    List PoliceStation → PoliceStation × ℝ
  | [] => (best, bestDist)
  | station :: rest =>
    let d := calculateDistance latitude longitude station.latitude station.longitude
    if d < bestDist then nearestScan latitude longitude station d rest
    else nearestScan latitude longitude best bestDist rest

/-- `findNearestPoliceStation(latitude, longitude, prisma)`: the Prisma query
`findMany({ where: { isActive: true } })` is modelled as a filter on the
station list; with no active station the function returns `null`, otherwise
it scans linearly starting from the first active station. -/
noncomputable def findNearestPoliceStation (latitude longitude : ℝ)
    (stations : List PoliceStation) : Option (PoliceStation × ℝ) :=
  match stations.filter (fun s => s.isActive) with
  | [] => none
  | s0 :: rest =>
    some (nearestScan latitude longitude s0
      (calculateDistance latitude longitude s0.latitude s0.longitude) rest)

/-! ## Data model (`prisma/migrations/..._init_postgresql/migration.sql`) -/

/-- A row of the `users` table (fields used by the modelled handlers). -/
structure User where
  id : String
  role : String
  isActive : Bool
  credibilityScore : Int
  policeStationId : Option String
  deriving Repr

/-- A row of the `incidents` table (fields used by the modelled handlers);
`latitude`/`longitude` are `DOUBLE PRECISION NOT NULL`, `status` is `TEXT`
defaulting to `SUBMITTED`. -/
structure Incident where
  id : String
  title : String
  description : String
  category : String
  latitude : ℝ
  longitude : ℝ
  city : Option String
  policeStationId : Option String
  status : String
  verificationNote : Option String
  verifiedAt : Option Nat
  verifiedBy : Option String
  publisherId : String
  publisherBadge : String
  viewCount : Nat
  createdAt : Nat

/-- A row of the `reports` table (a citizen complaint against an incident). -/
structure Report where
  id : String
  incidentId : String
  reporterId : String
  status : String
  reviewNote : Option String
  reviewedById : Option String
  reviewedAt : Option Nat
  deriving Repr

/-- A row of the `notifications` table.  The JSON `data` payload is reduced to
the incident id it carries (`JSON.stringify({ incidentId })`), or `none` where
the source passes no `data`. -/
structure Notification where
  userId : String
  ntype : String
  title : String
  message : String
  dataIncidentId : Option String
  deriving Repr

/-- A row of the append-only `audit_logs` table. -/
structure AuditLog where
  adminId : String
  action : String
  targetType : String
  targetId : String
  reason : Option String
  ipAddress : String
  userAgent : String
  deriving Repr

/-- A row of the `daily_post_trackers` table. -/
structure PostTracker where
  userId : String
  date : Nat
  postCount : Nat
  deriving DecidableEq, Repr

/-- `AppError(message, statusCode)` from `src/middleware/error.middleware.js`. -/
structure AppError where
  message : String
  statusCode : Nat
  deriving DecidableEq, Repr

/-- The persistent store: one list per table touched by the modelled routes. -/
structure DB where
  users : List User
  incidents : List Incident
  reports : List Report
  policeStations : List PoliceStation
  notifications : List Notification
  auditLogs : List AuditLog
  postTrackers : List PostTracker

/-! ## Configuration (`src/config/index.js`, env unset) -/

/-- `citizenDailyLimit: parseInt(process.env.CITIZEN_DAILY_LIMIT || '2')`. -/
def citizenDailyLimit : Nat := 2

/-- `verifiedReporterDailyLimit: parseInt(process.env.VERIFIED_REPORTER_DAILY_LIMIT || '5')`. -/
def verifiedReporterDailyLimit : Nat := 5

/-! ## Helpers for JavaScript truthiness -/

/-- `x || d` for an optional string (absent and `""` are falsy). -/
def strOr : Option String → String → String
  | none, d => d
  | some s, d => if s = "" then d else s

/-- `parseInt(x) || d` for an optional numeric query parameter (absent, `NaN`
and `0` all fall back to the default). -/
def natOr : Option Nat → Nat → Nat
  | none, d => d
  | some n, d => if n = 0 then d else n

/-- Substring test backing the Prisma `{ contains: pat }` filter. -/
def strContains (s pat : String) : Bool :=
  pat.isEmpty || 2 ≤ (s.splitOn pat).length

/-! ## Moderation decision (`PUT /incidents/:id/status`, `admin.routes.js`) -/

/-- `notifyPoliceStation(policeStationId, incident, prisma)`: one
`NEW_INCIDENT_NEARBY` notification per active `POLICE` user attached to the
station (an empty officer list produces no rows). -/
def notifyPoliceStation (policeStationId : String) (incident : Incident)
    (users : List User) : List Notification :=
  (users.filter (fun u =>
      u.policeStationId == some policeStationId && u.role == "POLICE" && u.isActive)).map
    (fun officer =>
      { userId := officer.id
        ntype := "NEW_INCIDENT_NEARBY"
        title := "New Incident: " ++ incident.category
        message := "A new " ++ incident.category.toLower ++
          " incident has been reported near your jurisdiction at the location."
        dataIncidentId := some incident.id })

/-- Publisher notification built by the status handler: type and message
default to the `VERIFIED` wording and are overridden for `REJECTED` /
`TAKEN_DOWN`; the title tests `status === 'VERIFIED'`. -/
def publisherStatusNotification (incident : Incident) (status : String)
    (verificationNote : Option String) : Notification :=
  let ntype :=
    if status = "REJECTED" then "INCIDENT_REJECTED"
    else if status = "TAKEN_DOWN" then "INCIDENT_REPORTED"
    else "INCIDENT_VERIFIED"
  let message :=
    if status = "REJECTED" then
      "Your incident report was rejected. Reason: " ++ strOr verificationNote "Not specified"
    else if status = "TAKEN_DOWN" then
      "Your incident report was taken down. Reason: " ++ strOr verificationNote "Policy violation"
    else
      "Your incident report has been verified and is now visible to the public."
  { userId := incident.publisherId
    ntype := ntype
    title := if status = "VERIFIED" then "Incident Verified!" else "Incident Status Update"
    message := message
    dataIncidentId := some incident.id }

/-- Credibility-score change applied by the status handler: `increment: 2`
on `VERIFIED`, `decrement: 1` on `REJECTED`, no update otherwise. -/
def credibilityDelta (status : String) : Int :=
  if status = "VERIFIED" then 2 else if status = "REJECTED" then -1 else 0

/-- Audit action recorded by the status handler. -/
def auditAction (status : String) : String :=
  if status = "VERIFIED" then "VERIFY_INCIDENT"
  else if status = "REJECTED" then "REJECT_INCIDENT"
  else "TAKEDOWN_INCIDENT"

/-- The station re-resolution condition of the status handler:
`status === 'VERIFIED' && incident.latitude && incident.longitude` (a
non-null double is truthy exactly when it is non-zero). -/
noncomputable def stationLookup (db : DB) (incident : Incident)
    (status : String) : Option (PoliceStation × ℝ) :=
  if status = "VERIFIED" ∧ incident.latitude ≠ 0 ∧ incident.longitude ≠ 0 then
    findNearestPoliceStation incident.latitude incident.longitude db.policeStations
  else none

/-- `let policeStationId = incident.policeStationId` possibly overwritten by
the re-resolution result. -/
noncomputable def assignedStationId (db : DB) (incident : Incident)
    (status : String) : Option String :=
  match stationLookup db incident status with
  | some result => some result.1.id
  | none => incident.policeStationId

/-- Officer notifications fired when the re-resolution found a station. -/
noncomputable def stationNotifications (db : DB) (incident : Incident)
    (status : String) : List Notification :=
  match stationLookup db incident status with
  | some result => notifyPoliceStation result.1.id incident db.users
  | none => []

/-- The `prisma.incident.update` data object of the status handler: the new
status, the moderation fields, and the (conditionally spread) police-station
assignment.  An absent `verificationNote` leaves the column untouched. -/
def moderatedIncident (incident : Incident) (status : String)
    (note : Option String) (now : Nat) (moderatorId : String)
    (psid : Option String) : Incident :=
  { incident with
    status := status
    verificationNote :=
      match note with
      | some v => some v
      | none => incident.verificationNote
    verifiedAt := some now
    verifiedBy := some moderatorId
    policeStationId :=
      match psid with
      | some p => some p
      | none => incident.policeStationId }

/-- The credibility update of the status handler: `increment: 2` on
`VERIFIED`, `decrement: 1` on `REJECTED`, no `prisma.user.update` call
otherwise. -/
def moderatedUsers (users : List User) (publisherId : String)
    (status : String) : List User :=
  if status = "VERIFIED" ∨ status = "REJECTED" then
    users.map (fun u =>
      if u.id == publisherId then
        { u with credibilityScore := u.credibilityScore + credibilityDelta status }
      else u)
  else users

/-- The `prisma.auditLog.create` data object of the status handler. -/
def decisionAuditLog (moderatorId status : String) (note : Option String)
    (targetId ip userAgent : String) : AuditLog :=
  { adminId := moderatorId
    action := auditAction status
    targetType := "INCIDENT"
    targetId := targetId
    reason := note
    ipAddress := ip
    userAgent := userAgent }

/-- `PUT /api/admin/incidents/:id/status`.  In source order: reject a
requested status outside `['VERIFIED', 'REJECTED', 'TAKEN_DOWN']` (400);
404 when the incident id is unknown; when verifying an incident whose
coordinates are truthy, re-resolve the nearest active police station and
notify its officers; overwrite the incident's status and moderation fields
(no check against the current status); append the publisher notification;
apply the credibility change; append one audit log entry. -/
noncomputable def updateIncidentStatus (db : DB) (incidentId : String)
    (moderatorId : String) (status : String) (verificationNote : Option String)
    (now : Nat) (ip userAgent : String) : Except AppError DB :=
  if ¬ (["VERIFIED", "REJECTED", "TAKEN_DOWN"].contains status) then
    .error ⟨"Invalid status", 400⟩
  else
    match db.incidents.find? (fun i => i.id == incidentId) with
    | none => .error ⟨"Incident not found", 404⟩
    | some incident =>
      .ok { db with
        incidents := db.incidents.map (fun i =>
          if i.id == incidentId then
            moderatedIncident incident status verificationNote now moderatorId
              (assignedStationId db incident status)
          else i)
        users := moderatedUsers db.users incident.publisherId status
        notifications := db.notifications ++
          stationNotifications db incident status ++
          [publisherStatusNotification incident status verificationNote]
        auditLogs := db.auditLogs ++
          [decisionAuditLog moderatorId status verificationNote incident.id
            ip userAgent] }

/-! ## Citizen-report review (`PUT /reports/:id`, `admin.routes.js`) -/

/-- `PUT /api/admin/reports/:id`.  Validates the review status, 404s on an
unknown report, updates the report row, and — when `takeDownIncident` is
truthy and the included incident exists — sets the incident to `TAKEN_DOWN`
and notifies its publisher.  The cascade writes no audit log entry and no
credibility change. -/
def reviewReport (db : DB) (reportId : String) (reviewerId : String)
    (status : String) (reviewNote : Option String) (takeDownIncident : Bool)
    (now : Nat) : Except AppError DB :=
  if ¬ (["REVIEWED", "ACTION_TAKEN", "DISMISSED"].contains status) then
    .error ⟨"Invalid status", 400⟩
  else
    match db.reports.find? (fun r => r.id == reportId) with
    | none => .error ⟨"Report not found", 404⟩
    | some report =>
      let reports' := db.reports.map (fun r =>
        if r.id == reportId then
          { r with
            status := status
            reviewNote :=
              match reviewNote with
              | some v => some v
              | none => r.reviewNote
            reviewedById := some reviewerId
            reviewedAt := some now }
        else r)
      match takeDownIncident, db.incidents.find? (fun i => i.id == report.incidentId) with
      | true, some incident =>
        .ok { db with
          reports := reports'
          incidents := db.incidents.map (fun i =>
            if i.id == incident.id then
              { i with
                status := "TAKEN_DOWN"
                verificationNote := some (strOr reviewNote "Taken down due to reports")
                verifiedBy := some reviewerId
                verifiedAt := some now }
            else i)
          notifications := db.notifications ++
            [{ userId := incident.publisherId
               ntype := "INCIDENT_REPORTED"
               title := "Incident Taken Down"
               message := "Your incident \"" ++ incident.title ++
                 "\" was taken down due to policy violation."
               dataIncidentId := none }] }
      | _, _ =>
        .ok { db with reports := reports' }

/-! ## Public incident routes (`src/routes/incident.routes.js`) -/

/-- The authenticated requester attached by `optionalAuth` (`req.user`), or
`none` for an anonymous request. -/
structure AuthUser where
  id : String
  role : String
  deriving DecidableEq, Repr

/-- Query parameters of `GET /api/incidents` used by its `where` clause and
pagination. -/
structure FeedQuery where
  page : Option Nat
  limit : Option Nat
  category : Option String
  status : Option String
  city : Option String
  deriving Repr

/-- The `where` clause of the public feed: `status: status || 'VERIFIED'`
plus optional category equality and city `contains` filters.  The requester
plays no part in it. -/
def feedWhere (q : FeedQuery) (i : Incident) : Bool :=
  i.status == strOr q.status "VERIFIED" &&
  (match q.category with
   | some c => i.category == c
   | none => true) &&
  (match q.city with
   | some c => (match i.city with
       | some ic => strContains ic c
       | none => false)
   | none => true)

/-- `GET /api/incidents` (public feed): filter by `feedWhere`, order by
`createdAt` descending, then apply `skip`/`take` pagination with defaults
`page = 1`, `limit = 10`.  `optionalAuth` attaches `req.user` but the handler
never consults it. -/
def getIncidentsFeed (db : DB) (_requester : Option AuthUser) (q : FeedQuery) :
    List Incident :=
  let page := natOr q.page 1
  let limit := natOr q.limit 10
  let skip := (page - 1) * limit
  (((db.incidents.filter (feedWhere q)).mergeSort
      (fun a b => decide (b.createdAt ≤ a.createdAt))).drop skip).take limit

/-- `GET /api/incidents/:id`: 404 on an unknown id; a non-`VERIFIED` incident
is served only to its publisher or to an `ADMIN`/`MODERATOR` requester
(otherwise 404); on success the view counter is incremented and the incident
as fetched (before the increment) is returned. -/
def getIncident (db : DB) (requester : Option AuthUser) (incidentId : String) :
    Except AppError (Incident × DB) :=
  match db.incidents.find? (fun i => i.id == incidentId) with
  | none => .error ⟨"Incident not found", 404⟩
  | some incident =>
    if incident.status != "VERIFIED" &&
        (match requester with
         | none => true
         | some u => u.id != incident.publisherId &&
             !(["ADMIN", "MODERATOR"].contains u.role)) then
      .error ⟨"Incident not found", 404⟩
    else
      .ok (incident,
        { db with incidents := db.incidents.map (fun i =>
            if i.id == incidentId then { i with viewCount := i.viewCount + 1 } else i) })

/-! ## Daily submission quota (`src/middleware/rateLimit.middleware.js`) -/

/-- `checkPostLimit`: look up the requester's tracker row with
`date: { gte: today }`, take its count (0 when absent), pick the ceiling by
role, and reject with 429 when the count has reached the ceiling. -/
def checkPostLimit (trackers : List PostTracker) (userId : String)
    (role : String) (today : Nat) : Option AppError :=
  let tracker := trackers.find? (fun t => t.userId == userId && today ≤ t.date)
  let currentCount := (tracker.map (fun t => t.postCount)).getD 0
  let limit := if role = "VERIFIED_REPORTER" then verifiedReporterDailyLimit
    else citizenDailyLimit
  if limit ≤ currentCount then
    some ⟨"Daily posting limit reached", 429⟩
  else none

/-- `incrementPostCount(userId)`: upsert on the `(userId, date)` key — update
`postCount` by 1 when the row exists, otherwise create it with count 1. -/
def incrementPostCount (trackers : List PostTracker) (userId : String)
    (today : Nat) : List PostTracker :=
  if (trackers.find? (fun t => t.userId == userId && t.date == today)).isSome then
    trackers.map (fun t =>
      if t.userId == userId && t.date == today then
        { t with postCount := t.postCount + 1 }
      else t)
  else
    trackers ++ [{ userId := userId, date := today, postCount := 1 }]

/-- The request body of `POST /api/incidents` (fields the model tracks). -/
structure IncidentDraft where
  id : String
  title : String
  description : String
  category : String
  latitude : ℝ
  longitude : ℝ
  city : Option String

/-- Inline nearest-station loop of the create handler: start from
`minDistance = Infinity`, `nearestStation = null` and keep any strictly
closer station. -/
noncomputable def inlineNearestScan (latitude longitude : ℝ) :
    List PoliceStation → Option (PoliceStation × ℝ) → Option (PoliceStation × ℝ)
  | [], best => best
  | station :: rest, best =>
    let d := calculateDistance latitude longitude station.latitude station.longitude
    match best with
    | none => inlineNearestScan latitude longitude rest (some (station, d))
    | some (b, bd) =>
      if d < bd then inlineNearestScan latitude longitude rest (some (station, d))
      else inlineNearestScan latitude longitude rest (some (b, bd))

/-- The `prisma.incident.create` data object of the submission handler: the
draft fields, the inline-resolved nearest active station, initial status
`SUBMITTED`, and the publisher's role snapshotted as the badge. -/
noncomputable def submittedIncident (db : DB) (user : AuthUser)
    (draft : IncidentDraft) (now : Nat) : Incident :=
  { id := draft.id
    title := draft.title
    description := draft.description
    category := draft.category
    latitude := draft.latitude
    longitude := draft.longitude
    city := draft.city
    policeStationId :=
      ((inlineNearestScan draft.latitude draft.longitude
        (db.policeStations.filter (fun s => s.isActive)) none).map
          (fun r => r.1.id))
    status := "SUBMITTED"
    verificationNote := none
    verifiedAt := none
    verifiedBy := none
    publisherId := user.id
    publisherBadge := user.role
    viewCount := 0
    createdAt := now }

/-- `POST /api/incidents`: the `checkPostLimit` middleware runs first and a
429 aborts the request before any row is written; otherwise the nearest
active station is resolved inline, the incident is created in status
`SUBMITTED` with the publisher's role snapshotted as `publisherBadge`, and
`incrementPostCount` bumps the daily tracker. -/
noncomputable def createIncident (db : DB) (user : AuthUser)
    (draft : IncidentDraft) (today now : Nat) : Except AppError DB :=
  match checkPostLimit db.postTrackers user.id user.role today with
  | some e => .error e
  | none =>
    .ok { db with
      incidents := db.incidents ++ [submittedIncident db user draft now]
      postTrackers := incrementPostCount db.postTrackers user.id today }

/-- Observable effect of one `PUT /incidents/:id/status` request: a thrown
`AppError` is caught by `asyncHandler`/`errorHandler` with no write performed,
so the store is returned unchanged alongside the error. -/
noncomputable def applyUpdateIncidentStatus (db : DB) (incidentId : String)
    (moderatorId : String) (status : String) (verificationNote : Option String)
    (now : Nat) (ip userAgent : String) : DB × Option AppError :=
  match updateIncidentStatus db incidentId moderatorId status verificationNote now ip userAgent with
  | .ok db' => (db', none)
  | .error e => (db, some e)

/-! ## Theorems -/

/-- The empty OTP store (no code ever issued). -/
def emptyOtpStore : OtpStore := fun _ => none

/-- Claim C10: `storeOTP`, invoked on each accepted code request,
unconditionally overwrites any existing record for the address: afterwards
the stored code equals the new code, the attempt counter is 0, and the
expiry equals the creation time plus 5 minutes; records of every other
address are untouched (so a fresh code replaces the previous code and
erases its accumulated failed attempts). -/
theorem C10_storeOTP_overwrites (s : OtpStore) (email otp : String) (now : Nat) :
    storeOTP s email otp now email =
      some ⟨otp, 0, now, now + OTP_EXPIRY⟩ ∧
    OTP_EXPIRY = 5 * 60 * 1000 ∧
    ∀ e, e ≠ email → storeOTP s email otp now e = s e := by
  refine ⟨?_, rfl, ?_⟩
  · simp [storeOTP, OtpStore.insert]
  · intro e he
    simp [storeOTP, OtpStore.insert, he]

/-- Witness for C10 at a concrete store and address. -/
theorem C10_storeOTP_overwrites_witness :
    storeOTP emptyOtpStore "a@x.com" "123456" 7 "a@x.com" =
      some ⟨"123456", 0, 7, 7 + OTP_EXPIRY⟩ ∧
    storeOTP emptyOtpStore "a@x.com" "123456" 7 "b@x.com" = emptyOtpStore "b@x.com" :=
  ⟨(C10_storeOTP_overwrites emptyOtpStore "a@x.com" "123456" 7).1,
   (C10_storeOTP_overwrites emptyOtpStore "a@x.com" "123456" 7).2.2 "b@x.com"
     (by decide)⟩

/-- Claim C7: `verifyOTP` fails with a distinct not-found reason when no
record exists; deletes the record and fails when it is expired; deletes the
record and fails when attempts already reached the ceiling of 3; and on a
value mismatch increments the attempt counter, retains the record, and
fails.  Consequently, after a code is issued and guessed wrongly 3 times in
a row (within the expiry window), a 4th guess — even with the correct code —
fails and the record is deleted. -/
theorem C7_verifyOTP_attempt_ceiling :
    (∀ (s : OtpStore) (email input : String) (now : Nat),
      s email = none →
      verifyOTP s email input now = (⟨false, "OTP not found or expired"⟩, s)) ∧
    (∀ (s : OtpStore) (email input : String) (now : Nat) (r : OtpRecord),
      s email = some r → r.expiresAt < now →
      verifyOTP s email input now = (⟨false, "OTP expired"⟩, s.erase email) ∧
      (verifyOTP s email input now).2 email = none) ∧
    (∀ (s : OtpStore) (email input : String) (now : Nat) (r : OtpRecord),
      s email = some r → ¬ r.expiresAt < now → MAX_ATTEMPTS ≤ r.attempts →
      verifyOTP s email input now =
        (⟨false, "Maximum attempts exceeded"⟩, s.erase email) ∧
      (verifyOTP s email input now).2 email = none) ∧
    (∀ (s : OtpStore) (email input : String) (now : Nat) (r : OtpRecord),
      s email = some r → ¬ r.expiresAt < now → r.attempts < MAX_ATTEMPTS →
      r.otp ≠ input →
      verifyOTP s email input now =
        (⟨false, "Invalid OTP"⟩,
          s.insert email { r with attempts := r.attempts + 1 }) ∧
      (verifyOTP s email input now).2 email =
        some { r with attempts := r.attempts + 1 }) ∧
    (∀ (s : OtpStore) (email code w₁ w₂ w₃ : String) (t₀ t₁ t₂ t₃ t₄ : Nat),
      w₁ ≠ code → w₂ ≠ code → w₃ ≠ code →
      t₁ ≤ t₀ + OTP_EXPIRY → t₂ ≤ t₀ + OTP_EXPIRY →
      t₃ ≤ t₀ + OTP_EXPIRY → t₄ ≤ t₀ + OTP_EXPIRY →
      (verifyOTP (verifyOTP (verifyOTP (verifyOTP
          (storeOTP s email code t₀) email w₁ t₁).2 email w₂ t₂).2
          email w₃ t₃).2 email code t₄).1.success = false ∧
      (verifyOTP (verifyOTP (verifyOTP (verifyOTP
          (storeOTP s email code t₀) email w₁ t₁).2 email w₂ t₂).2
          email w₃ t₃).2 email code t₄).2 email = none) := by
  have hins : ∀ (u : OtpStore) (email : String) (r : OtpRecord),
      (u.insert email r) email = some r := by
    intro u email r; simp [OtpStore.insert]
  have hmiss : ∀ (u : OtpStore) (email w code : String) (t tC tExp k : Nat),
      u email = some ⟨code, k, tC, tExp⟩ → w ≠ code →
      t ≤ tExp → k < MAX_ATTEMPTS →
      verifyOTP u email w t =
        (⟨false, "Invalid OTP"⟩, u.insert email ⟨code, k + 1, tC, tExp⟩) := by
    intro u email w code t tC tExp k hu hw ht hk
    simp only [verifyOTP, hu]
    rw [if_neg (Nat.not_lt.mpr ht), if_neg (Nat.not_le.mpr hk),
      if_pos (Ne.symm hw)]
  refine ⟨?_, ?_, ?_, ?_, ?_⟩
  · intro s email input now h
    simp [verifyOTP, h]
  · intro s email input now r h hexp
    simp [verifyOTP, h, hexp, OtpStore.erase]
  · intro s email input now r h hexp hatt
    simp [verifyOTP, h, hexp, hatt, OtpStore.erase]
  · intro s email input now r h hexp hatt hne
    rw [Nat.not_lt] at hexp
    have hv := hmiss s email input r.otp now r.createdAt r.expiresAt r.attempts
      (by rw [h]) (Ne.symm hne) hexp hatt
    refine ⟨hv, ?_⟩
    rw [hv]
    simp [OtpStore.insert]
  · intro s email code w₁ w₂ w₃ t₀ t₁ t₂ t₃ t₄ h₁ h₂ h₃ e₁ e₂ e₃ e₄
    have h0 : (storeOTP s email code t₀) email =
        some ⟨code, 0, t₀, t₀ + OTP_EXPIRY⟩ := by
      simp [storeOTP, OtpStore.insert]
    have v1 := hmiss (storeOTP s email code t₀) email w₁ code t₁ t₀
      (t₀ + OTP_EXPIRY) 0 h0 h₁ e₁ (by decide)
    have p1 : (verifyOTP (storeOTP s email code t₀) email w₁ t₁).2 =
        (storeOTP s email code t₀).insert email ⟨code, 0 + 1, t₀, t₀ + OTP_EXPIRY⟩ := by
      rw [v1]
    have v2 := hmiss
      ((storeOTP s email code t₀).insert email ⟨code, 0 + 1, t₀, t₀ + OTP_EXPIRY⟩)
      email w₂ code t₂ t₀ (t₀ + OTP_EXPIRY) (0 + 1) (hins _ email _) h₂ e₂ (by decide)
    have p2 : (verifyOTP (verifyOTP (storeOTP s email code t₀) email w₁ t₁).2
        email w₂ t₂).2 =
        (((storeOTP s email code t₀).insert email
            ⟨code, 0 + 1, t₀, t₀ + OTP_EXPIRY⟩).insert email
          ⟨code, 0 + 1 + 1, t₀, t₀ + OTP_EXPIRY⟩) := by
      rw [p1, v2]
    have v3 := hmiss
      (((storeOTP s email code t₀).insert email
          ⟨code, 0 + 1, t₀, t₀ + OTP_EXPIRY⟩).insert email
        ⟨code, 0 + 1 + 1, t₀, t₀ + OTP_EXPIRY⟩)
      email w₃ code t₃ t₀ (t₀ + OTP_EXPIRY) (0 + 1 + 1) (hins _ email _) h₃ e₃
      (by decide)
    have p3 : (verifyOTP (verifyOTP (verifyOTP (storeOTP s email code t₀)
        email w₁ t₁).2 email w₂ t₂).2 email w₃ t₃).2 =
        ((((storeOTP s email code t₀).insert email
              ⟨code, 0 + 1, t₀, t₀ + OTP_EXPIRY⟩).insert email
            ⟨code, 0 + 1 + 1, t₀, t₀ + OTP_EXPIRY⟩).insert email
          ⟨code, 0 + 1 + 1 + 1, t₀, t₀ + OTP_EXPIRY⟩) := by
      rw [p2, v3]
    rw [p3]
    simp only [verifyOTP, hins]
    rw [if_neg (Nat.not_lt.mpr e₄),
      if_pos (by decide : MAX_ATTEMPTS ≤ 0 + 1 + 1 + 1)]
    simp [OtpStore.erase]

/-- Witness for C7: a concrete code issued to `a@x.com`, three wrong guesses,
then the correct code on the 4th try — which still fails, the record being
gone afterwards. -/
theorem C7_verifyOTP_attempt_ceiling_witness :
    (verifyOTP (verifyOTP (verifyOTP (verifyOTP
        (storeOTP emptyOtpStore "a@x.com" "123456" 0) "a@x.com" "000000" 1).2
        "a@x.com" "111111" 2).2 "a@x.com" "222222" 3).2
        "a@x.com" "123456" 4).1.success = false ∧
    (verifyOTP (verifyOTP (verifyOTP (verifyOTP
        (storeOTP emptyOtpStore "a@x.com" "123456" 0) "a@x.com" "000000" 1).2
        "a@x.com" "111111" 2).2 "a@x.com" "222222" 3).2
        "a@x.com" "123456" 4).2 "a@x.com" = none :=
  C7_verifyOTP_attempt_ceiling.2.2.2.2 emptyOtpStore "a@x.com" "123456"
    "000000" "111111" "222222" 0 1 2 3 4
    (by decide) (by decide) (by decide)
    (by decide) (by decide) (by decide) (by decide)

/-- Claim C8: for a fresh window on an address (never seen, or the
window-reset time has elapsed, which is what resets the counter and allows
5 more calls), exactly `MAX_REQUESTS_PER_HOUR = 5` check calls within the
window are allowed — leaving the counter at 5 with reset time first call +
1 hour — the 6th call is denied with a retry-after hint of at most 60
minutes, and a denied call leaves the stored counter untouched. -/
theorem C8_checkRateLimit_fixed_window :
    (∀ (s : RateStore) (email : String) (now : Nat) (d : RateData),
      s email = some d → now ≤ d.resetAt → MAX_REQUESTS_PER_HOUR ≤ d.count →
      checkRateLimit s email now =
        (⟨false, some (ceilMinutes (d.resetAt - now))⟩, s)) ∧
    (∀ (s : RateStore) (email : String) (t₁ t₂ t₃ t₄ t₅ t₆ : Nat),
      (s email = none ∨ ∃ d : RateData, s email = some d ∧ d.resetAt < t₁) →
      t₁ ≤ t₂ → t₂ ≤ t₃ → t₃ ≤ t₄ → t₄ ≤ t₅ → t₅ ≤ t₆ →
      t₆ ≤ t₁ + RATE_LIMIT_WINDOW →
      (checkRateLimit s email t₁).1.allowed = true ∧
      (checkRateLimit (checkRateLimit s email t₁).2 email t₂).1.allowed = true ∧
      (checkRateLimit (checkRateLimit (checkRateLimit s email t₁).2 email t₂).2
        email t₃).1.allowed = true ∧
      (checkRateLimit (checkRateLimit (checkRateLimit (checkRateLimit s email
        t₁).2 email t₂).2 email t₃).2 email t₄).1.allowed = true ∧
      (checkRateLimit (checkRateLimit (checkRateLimit (checkRateLimit
        (checkRateLimit s email t₁).2 email t₂).2 email t₃).2 email t₄).2
        email t₅).1.allowed = true ∧
      (checkRateLimit (checkRateLimit (checkRateLimit (checkRateLimit
        (checkRateLimit s email t₁).2 email t₂).2 email t₃).2 email t₄).2
        email t₅).2 email = some ⟨5, t₁ + RATE_LIMIT_WINDOW⟩ ∧
      (checkRateLimit (checkRateLimit (checkRateLimit (checkRateLimit
        (checkRateLimit (checkRateLimit s email t₁).2 email t₂).2 email t₃).2
        email t₄).2 email t₅).2 email t₆).1.allowed = false ∧
      ((checkRateLimit (checkRateLimit (checkRateLimit (checkRateLimit
        (checkRateLimit (checkRateLimit s email t₁).2 email t₂).2 email t₃).2
        email t₄).2 email t₅).2 email t₆).1.retryAfterMinutes).getD 0 ≤ 60 ∧
      (checkRateLimit (checkRateLimit (checkRateLimit (checkRateLimit
        (checkRateLimit (checkRateLimit s email t₁).2 email t₂).2 email t₃).2
        email t₄).2 email t₅).2 email t₆).2 =
      (checkRateLimit (checkRateLimit (checkRateLimit (checkRateLimit
        (checkRateLimit s email t₁).2 email t₂).2 email t₃).2 email t₄).2
        email t₅).2) := by
  have hins : ∀ (u : RateStore) (email : String) (d : RateData),
      (u.insert email d) email = some d := by
    intro u email d; simp [RateStore.insert]
  have hdeny : ∀ (u : RateStore) (email : String) (now : Nat) (d : RateData),
      u email = some d → now ≤ d.resetAt → MAX_REQUESTS_PER_HOUR ≤ d.count →
      checkRateLimit u email now =
        (⟨false, some (ceilMinutes (d.resetAt - now))⟩, u) := by
    intro u email now d hu hle hc
    simp only [checkRateLimit, hu]
    rw [if_neg (Nat.not_lt.mpr hle), if_pos hc]
  refine ⟨hdeny, ?_⟩
  intro s email t₁ t₂ t₃ t₄ t₅ t₆ hfresh l₁₂ l₂₃ l₃₄ l₄₅ l₅₆ hwin
  have step : ∀ (u : RateStore) (now c R : Nat), u email = some ⟨c, R⟩ →
      now ≤ R → c < MAX_REQUESTS_PER_HOUR →
      checkRateLimit u email now = (⟨true, none⟩, u.insert email ⟨c + 1, R⟩) := by
    intro u now c R hu hle hc
    simp only [checkRateLimit, hu]
    rw [if_neg (Nat.not_lt.mpr hle), if_neg (Nat.not_le.mpr hc)]
  have v1 : checkRateLimit s email t₁ =
      (⟨true, none⟩, s.insert email ⟨1, t₁ + RATE_LIMIT_WINDOW⟩) := by
    rcases hfresh with h | ⟨d, hd, hlt⟩
    · simp [checkRateLimit, h]
    · simp only [checkRateLimit, hd]
      rw [if_pos hlt]
  have v2 := step (s.insert email ⟨1, t₁ + RATE_LIMIT_WINDOW⟩) t₂ 1
    (t₁ + RATE_LIMIT_WINDOW) (hins ..) (by omega) (by decide)
  have v3 := step ((s.insert email ⟨1, t₁ + RATE_LIMIT_WINDOW⟩).insert email
      ⟨1 + 1, t₁ + RATE_LIMIT_WINDOW⟩) t₃ (1 + 1)
    (t₁ + RATE_LIMIT_WINDOW) (hins ..) (by omega) (by decide)
  have v4 := step (((s.insert email ⟨1, t₁ + RATE_LIMIT_WINDOW⟩).insert email
      ⟨1 + 1, t₁ + RATE_LIMIT_WINDOW⟩).insert email
      ⟨1 + 1 + 1, t₁ + RATE_LIMIT_WINDOW⟩) t₄ (1 + 1 + 1)
    (t₁ + RATE_LIMIT_WINDOW) (hins ..) (by omega) (by decide)
  have v5 := step ((((s.insert email ⟨1, t₁ + RATE_LIMIT_WINDOW⟩).insert email
      ⟨1 + 1, t₁ + RATE_LIMIT_WINDOW⟩).insert email
      ⟨1 + 1 + 1, t₁ + RATE_LIMIT_WINDOW⟩).insert email
      ⟨1 + 1 + 1 + 1, t₁ + RATE_LIMIT_WINDOW⟩) t₅ (1 + 1 + 1 + 1)
    (t₁ + RATE_LIMIT_WINDOW) (hins ..) (by omega) (by decide)
  have v6 := hdeny (((((s.insert email ⟨1, t₁ + RATE_LIMIT_WINDOW⟩).insert email
      ⟨1 + 1, t₁ + RATE_LIMIT_WINDOW⟩).insert email
      ⟨1 + 1 + 1, t₁ + RATE_LIMIT_WINDOW⟩).insert email
      ⟨1 + 1 + 1 + 1, t₁ + RATE_LIMIT_WINDOW⟩).insert email
      ⟨1 + 1 + 1 + 1 + 1, t₁ + RATE_LIMIT_WINDOW⟩) email t₆
      ⟨1 + 1 + 1 + 1 + 1, t₁ + RATE_LIMIT_WINDOW⟩ (hins ..) hwin
      ((by decide : MAX_REQUESTS_PER_HOUR ≤ 1 + 1 + 1 + 1 + 1))
  have hhint : ceilMinutes (t₁ + RATE_LIMIT_WINDOW - t₆) ≤ 60 := by
    have hmono : ceilMinutes (t₁ + RATE_LIMIT_WINDOW - t₆) ≤
        ceilMinutes RATE_LIMIT_WINDOW := by
      unfold ceilMinutes
      exact Nat.div_le_div_right (by omega)
    have hW : ceilMinutes RATE_LIMIT_WINDOW = 60 := by
      norm_num [ceilMinutes, RATE_LIMIT_WINDOW]
    omega
  rw [v1]
  simp only []
  rw [v2]
  simp only []
  rw [v3]
  simp only []
  rw [v4]
  simp only []
  rw [v5]
  simp only []
  rw [v6]
  simpa [hins] using hhint

/-- The empty rate-limit store (no request ever made). -/
def emptyRateStore : RateStore := fun _ => none

/-- A rate-limit store with a saturated counter for every address. -/
def fullRateStore : RateStore := fun _ => some ⟨5, 100⟩

/-- Witness for C8: a denial on a saturated counter at a concrete store, and
an allowed first call on a fresh store. -/
theorem C8_checkRateLimit_fixed_window_witness :
    checkRateLimit fullRateStore "a@x.com" 40 =
      (⟨false, some (ceilMinutes (100 - 40))⟩, fullRateStore) ∧
    (checkRateLimit emptyRateStore "a@x.com" 0).1.allowed = true :=
  ⟨C8_checkRateLimit_fixed_window.1 fullRateStore "a@x.com" 40 ⟨5, 100⟩ rfl
      (by decide) (by decide),
   (C8_checkRateLimit_fixed_window.2 emptyRateStore "a@x.com" 0 0 0 0 0 0
      (Or.inl rfl) (Nat.le_refl 0) (Nat.le_refl 0) (Nat.le_refl 0)
      (Nat.le_refl 0) (Nat.le_refl 0) (Nat.zero_le _)).1⟩

/-- The empty store. -/
def emptyDB : DB :=
  { users := [], incidents := [], reports := [], policeStations := []
    notifications := [], auditLogs := [], postTrackers := [] }

/-- Claim C4: a moderation decision whose requested status lies outside
`{VERIFIED, REJECTED, TAKEN_DOWN}` fails with the `Invalid status` (400)
error thrown before the incident is even read, so the store — and in
particular the targeted report — is completely unchanged and no side effect
is produced. -/
theorem C4_invalid_status_rejected (db : DB)
    (incidentId moderatorId status : String) (note : Option String)
    (now : Nat) (ip ua : String)
    (h : ¬ (["VERIFIED", "REJECTED", "TAKEN_DOWN"].contains status)) :
    applyUpdateIncidentStatus db incidentId moderatorId status note now ip ua =
      (db, some ⟨"Invalid status", 400⟩) := by
  simp only [applyUpdateIncidentStatus, updateIncidentStatus]
  rw [if_pos h]

/-- Witness for C4 at a concrete store and a malformed status. -/
theorem C4_invalid_status_rejected_witness :
    applyUpdateIncidentStatus emptyDB "i1" "m1" "DRAFT" none 0 "ip" "ua" =
      (emptyDB, some ⟨"Invalid status", 400⟩) :=
  C4_invalid_status_rejected emptyDB "i1" "m1" "DRAFT" none 0 "ip" "ua"
    (by decide)

/-- Replacing every incident that matches an id by a fixed incident carrying
that same id commutes with `find?`: if the original list has a match, the
mapped list's first match is the replacement. -/
theorem find?_map_replace (l : List Incident) (incidentId : String)
    (u : Incident) (hu : (u.id == incidentId) = true) (inc : Incident)
    (hfind : l.find? (fun i => i.id == incidentId) = some inc) :
    (l.map (fun i => if i.id == incidentId then u else i)).find?
      (fun i => i.id == incidentId) = some u := by
  induction l with
  | nil => simp at hfind
  | cons x xs ih =>
    rw [List.map_cons]
    by_cases hx : (x.id == incidentId) = true
    · rw [if_pos hx]
      simp only [List.find?, hu]
    · rw [if_neg hx]
      rw [Bool.not_eq_true] at hx
      simp only [List.find?, hx] at hfind ⊢
      exact ih hfind

/-- Claim C1 (amended): the status handler performs no transition-legality
check.  For every stored report and every requested status in
`{VERIFIED, REJECTED, TAKEN_DOWN}` the operation succeeds — regardless of
the report's current status, including `REJECTED` and `TAKEN_DOWN` — and
overwrites the status and moderation fields. -/
theorem C1_no_conflict_check (db : DB)
    (incidentId moderatorId status : String) (note : Option String)
    (now : Nat) (ip ua : String) (incident : Incident)
    (hfind : db.incidents.find? (fun i => i.id == incidentId) = some incident)
    (hstatus : ["VERIFIED", "REJECTED", "TAKEN_DOWN"].contains status) :
    (applyUpdateIncidentStatus db incidentId moderatorId status note now
      ip ua).2 = none ∧
    (((applyUpdateIncidentStatus db incidentId moderatorId status note now
        ip ua).1.incidents.find? (fun i => i.id == incidentId)).map
      (fun i => i.status)) = some status ∧
    (((applyUpdateIncidentStatus db incidentId moderatorId status note now
        ip ua).1.incidents.find? (fun i => i.id == incidentId)).map
      (fun i => i.verifiedBy)) = some (some moderatorId) := by
  have hu := List.find?_some hfind
  have hu2 : ((moderatedIncident incident status note now moderatorId
      (assignedStationId db incident status)).id == incidentId) = true := hu
  have hres := find?_map_replace db.incidents incidentId
    (moderatedIncident incident status note now moderatorId
      (assignedStationId db incident status)) hu2 incident hfind
  simp only [applyUpdateIncidentStatus, updateIncidentStatus]
  rw [if_neg (not_not_intro hstatus)]
  simp only [hfind]
  refine ⟨trivial, ?_, ?_⟩ <;> rw [hres] <;> rfl

/-- A concrete incident already decided as `REJECTED` (coordinates zero, so
the resolver branch is skipped on re-verification). -/
def c1incident : Incident :=
  { id := "i1", title := "t", description := "d", category := "OTHER"
    latitude := 0, longitude := 0, city := none, policeStationId := none
    status := "REJECTED", verificationNote := none, verifiedAt := none
    verifiedBy := none, publisherId := "u1", publisherBadge := "CITIZEN"
    viewCount := 0, createdAt := 0 }

/-- A store holding one already-rejected incident and its publisher. -/
def c1db : DB :=
  { users := [{ id := "u1", role := "CITIZEN", isActive := true
                credibilityScore := 50, policeStationId := none }]
    incidents := [c1incident]
    reports := [], policeStations := [], notifications := []
    auditLogs := [], postTrackers := [] }

/-- Counterexample to claim C1 as stated: requesting `VERIFIED` on an
incident whose current status is `REJECTED` (an illegal moderator
transition) does not fail with a conflict — the operation succeeds and the
status is overwritten to `VERIFIED`. -/
theorem C1_counterexample_rejected_to_verified :
    (applyUpdateIncidentStatus c1db "i1" "m1" "VERIFIED" none 5 "ip" "ua").2 =
      none ∧
    ((applyUpdateIncidentStatus c1db "i1" "m1" "VERIFIED" none 5 "ip"
        "ua").1.incidents.map (fun i => i.status)) = ["VERIFIED"] := by
  have hsl : stationLookup c1db c1incident "VERIFIED" = none := by
    simp [stationLookup, c1incident]
  have hfind : c1db.incidents.find? (fun i => i.id == "i1") = some c1incident :=
    rfl
  simp only [applyUpdateIncidentStatus, updateIncidentStatus]
  rw [if_neg (by decide)]
  simp only [hfind]
  refine ⟨trivial, ?_⟩
  simp [c1db, c1incident, moderatedIncident]

/-- Witness for the amended C1 at a concrete store: a moderator decision on
the stored incident succeeds and overwrites status and moderator identity. -/
theorem C1_no_conflict_check_witness :
    (applyUpdateIncidentStatus c1db "i1" "m1" "REJECTED" none 5 "ip" "ua").2 =
      none ∧
    (((applyUpdateIncidentStatus c1db "i1" "m1" "REJECTED" none 5 "ip"
        "ua").1.incidents.find? (fun i => i.id == "i1")).map
      (fun i => i.status)) = some "REJECTED" ∧
    (((applyUpdateIncidentStatus c1db "i1" "m1" "REJECTED" none 5 "ip"
        "ua").1.incidents.find? (fun i => i.id == "i1")).map
      (fun i => i.verifiedBy)) = some (some "m1") :=
  C1_no_conflict_check c1db "i1" "m1" "REJECTED" none 5 "ip" "ua" c1incident
    rfl (by decide)

/-- The credibility score stored for a user id (first match, as Prisma's
unique lookup). -/
def credibilityOf (users : List User) (uid : String) : Option Int :=
  (users.find? (fun u => u.id == uid)).map (fun u => u.credibilityScore)

/-- Updating the users matching an id by an id-preserving function commutes
with the first-match lookup on that id. -/
theorem find?_map_users (users : List User) (pid : String) (g : User → User)
    (hg : ∀ u, (g u).id = u.id) :
    (users.map (fun u => if u.id == pid then g u else u)).find?
      (fun u => u.id == pid) =
    (users.find? (fun u => u.id == pid)).map g := by
  induction users with
  | nil => rfl
  | cons x xs ih =>
    rw [List.map_cons]
    by_cases hx : (x.id == pid) = true
    · rw [if_pos hx]
      have hgx : ((g x).id == pid) = true := by rw [hg x]; exact hx
      simp only [List.find?, hgx, hx]
      rfl
    · rw [if_neg hx]
      rw [Bool.not_eq_true] at hx
      simp only [List.find?, hx]
      exact ih

/-- An incident in `SUBMITTED`, published by a user whose credibility score
is 0, together with its store. -/
def c5incident : Incident :=
  { id := "i5", title := "t", description := "d", category := "OTHER"
    latitude := 0, longitude := 0, city := none, policeStationId := none
    status := "SUBMITTED", verificationNote := none, verifiedAt := none
    verifiedBy := none, publisherId := "u5", publisherBadge := "CITIZEN"
    viewCount := 0, createdAt := 0 }

/-- A store whose publisher starts at credibility 0, to exhibit the missing
floor on rejection. -/
def c5db : DB :=
  { users := [{ id := "u5", role := "CITIZEN", isActive := true
                credibilityScore := 0, policeStationId := none }]
    incidents := [c5incident]
    reports := [], policeStations := [], notifications := []
    auditLogs := [], postTrackers := [] }

/-- Claim C5: an accepted moderation decision moves the publisher's
credibility score by exactly `credibilityDelta`: +2 on `VERIFIED`, −1 on
`REJECTED`, unchanged on `TAKEN_DOWN`; and the decrement has no floor — a
publisher at score 0 goes to −1 < 0 after a single rejection. -/
theorem C5_trust_score_delta (db : DB)
    (incidentId moderatorId status : String) (note : Option String)
    (now : Nat) (ip ua : String) (incident : Incident)
    (hfind : db.incidents.find? (fun i => i.id == incidentId) = some incident)
    (hstatus : ["VERIFIED", "REJECTED", "TAKEN_DOWN"].contains status) :
    (credibilityOf (applyUpdateIncidentStatus db incidentId moderatorId status
        note now ip ua).1.users incident.publisherId =
      (credibilityOf db.users incident.publisherId).map
        (fun c => c + credibilityDelta status)) ∧
    credibilityDelta "VERIFIED" = 2 ∧
    credibilityDelta "REJECTED" = -1 ∧
    credibilityDelta "TAKEN_DOWN" = 0 ∧
    credibilityOf (applyUpdateIncidentStatus c5db "i5" "m1" "REJECTED" none 0
        "ip" "ua").1.users "u5" = some (-1) ∧
    (-1 : Int) < 0 := by
  refine ⟨?_, rfl, rfl, rfl, ?_, by norm_num⟩
  · simp only [applyUpdateIncidentStatus, updateIncidentStatus]
    rw [if_neg (not_not_intro hstatus)]
    simp only [hfind]
    show credibilityOf (moderatedUsers db.users incident.publisherId status) _ = _
    have hs : status = "VERIFIED" ∨ status = "REJECTED" ∨
        status = "TAKEN_DOWN" := by
      have := hstatus
      simp only [List.contains_eq_any_beq, List.any_eq_true, beq_iff_eq,
        List.mem_cons, List.not_mem_nil, or_false] at this
      obtain ⟨w, hw, hsw⟩ := this
      subst hsw
      exact hw
    rcases hs with hs | hs | hs
    · subst hs
      unfold moderatedUsers credibilityOf
      rw [if_pos (Or.inl rfl)]
      rw [find?_map_users db.users incident.publisherId
        (fun u => { u with
          credibilityScore := u.credibilityScore + credibilityDelta "VERIFIED" })
        (fun u => rfl)]
      cases db.users.find? (fun u => u.id == incident.publisherId) <;> rfl
    · subst hs
      unfold moderatedUsers credibilityOf
      rw [if_pos (Or.inr rfl)]
      rw [find?_map_users db.users incident.publisherId
        (fun u => { u with
          credibilityScore := u.credibilityScore + credibilityDelta "REJECTED" })
        (fun u => rfl)]
      cases db.users.find? (fun u => u.id == incident.publisherId) <;> rfl
    · subst hs
      unfold moderatedUsers credibilityOf
      rw [if_neg (by decide)]
      cases db.users.find? (fun u => u.id == incident.publisherId) <;>
        simp [credibilityDelta]
  · have hfind5 : c5db.incidents.find? (fun i => i.id == "i5") =
        some c5incident := rfl
    simp only [applyUpdateIncidentStatus, updateIncidentStatus]
    rw [if_neg (by decide)]
    simp only [hfind5]
    simp [credibilityOf, moderatedUsers, c5db, c5incident, credibilityDelta,
      List.find?]

/-- Witness for C5 at a concrete store and a `VERIFIED` decision. -/
theorem C5_trust_score_delta_witness :
    (credibilityOf (applyUpdateIncidentStatus c5db "i5" "m1" "VERIFIED" none 0
        "ip" "ua").1.users c5incident.publisherId =
      (credibilityOf c5db.users c5incident.publisherId).map
        (fun c => c + credibilityDelta "VERIFIED")) ∧
    credibilityDelta "VERIFIED" = 2 ∧
    credibilityDelta "REJECTED" = -1 ∧
    credibilityDelta "TAKEN_DOWN" = 0 ∧
    credibilityOf (applyUpdateIncidentStatus c5db "i5" "m1" "REJECTED" none 0
        "ip" "ua").1.users "u5" = some (-1) ∧
    (-1 : Int) < 0 :=
  C5_trust_score_delta c5db "i5" "m1" "VERIFIED" none 0 "ip" "ua" c5incident
    rfl (by decide)

/-- A status accepted by the handler's whitelist is one of the three
moderation statuses. -/
theorem statusCasesOfContains {status : String}
    (h : (["VERIFIED", "REJECTED", "TAKEN_DOWN"].contains status) = true) :
    status = "VERIFIED" ∨ status = "REJECTED" ∨ status = "TAKEN_DOWN" := by
  simp only [List.contains_eq_any_beq, List.any_eq_true, beq_iff_eq,
    List.mem_cons, List.not_mem_nil, or_false] at h
  obtain ⟨w, hw, hsw⟩ := h
  subst hsw
  exact hw

/-- The credibility update shifts the publisher's stored score by exactly
`credibilityDelta status`. -/
theorem credibilityOf_moderatedUsers (users : List User) (pid status : String)
    (h : status = "VERIFIED" ∨ status = "REJECTED" ∨ status = "TAKEN_DOWN") :
    credibilityOf (moderatedUsers users pid status) pid =
      (credibilityOf users pid).map (fun c => c + credibilityDelta status) := by
  rcases h with h | h | h <;> subst h
  · unfold moderatedUsers credibilityOf
    rw [if_pos (Or.inl rfl)]
    rw [find?_map_users users pid
      (fun u => { u with
        credibilityScore := u.credibilityScore + credibilityDelta "VERIFIED" })
      (fun u => rfl)]
    cases users.find? (fun u => u.id == pid) <;> rfl
  · unfold moderatedUsers credibilityOf
    rw [if_pos (Or.inr rfl)]
    rw [find?_map_users users pid
      (fun u => { u with
        credibilityScore := u.credibilityScore + credibilityDelta "REJECTED" })
      (fun u => rfl)]
    cases users.find? (fun u => u.id == pid) <;> rfl
  · unfold moderatedUsers credibilityOf
    rw [if_neg (by decide)]
    cases users.find? (fun u => u.id == pid) <;> simp [credibilityDelta]

/-- Updating the incidents matching an id by an id-preserving function
commutes with the first-match lookup on that id. -/
theorem find?_map_incidents (l : List Incident) (tid : String)
    (f : Incident → Incident) (hf : ∀ i, (f i).id = i.id) :
    (l.map (fun i => if i.id == tid then f i else i)).find?
      (fun i => i.id == tid) =
    (l.find? (fun i => i.id == tid)).map f := by
  induction l with
  | nil => rfl
  | cons x xs ih =>
    rw [List.map_cons]
    by_cases hx : (x.id == tid) = true
    · rw [if_pos hx]
      have hfx : ((f x).id == tid) = true := by rw [hf x]; exact hx
      simp only [List.find?, hfx, hx]
      rfl
    · rw [if_neg hx]
      rw [Bool.not_eq_true] at hx
      simp only [List.find?, hx]
      exact ih

/-- Claim C3 (amended): for the direct decide operation the side-effect
bundle — publisher notification, credibility adjustment for the decision
kind, exactly one appended audit entry — is applied if and only if the
request is accepted (whitelisted status and existing incident), and a
failed request leaves the store untouched.  The takedown cascaded from a
citizen-report review, however, applies the status change and the publisher
notification but records no audit entry (and touches no credibility). -/
theorem C3_side_effects_iff_accepted :
    (∀ (db : DB) (incidentId moderatorId status : String)
        (note : Option String) (now : Nat) (ip ua : String),
      (applyUpdateIncidentStatus db incidentId moderatorId status note now
          ip ua).2 = none ↔
        ((["VERIFIED", "REJECTED", "TAKEN_DOWN"].contains status) = true ∧
          (db.incidents.find? (fun i => i.id == incidentId)).isSome = true)) ∧
    (∀ (db : DB) (incidentId moderatorId status : String)
        (note : Option String) (now : Nat) (ip ua : String),
      (applyUpdateIncidentStatus db incidentId moderatorId status note now
          ip ua).2 ≠ none →
      (applyUpdateIncidentStatus db incidentId moderatorId status note now
          ip ua).1 = db) ∧
    (∀ (db : DB) (incidentId moderatorId status : String)
        (note : Option String) (now : Nat) (ip ua : String)
        (incident : Incident),
      db.incidents.find? (fun i => i.id == incidentId) = some incident →
      (["VERIFIED", "REJECTED", "TAKEN_DOWN"].contains status) = true →
      (applyUpdateIncidentStatus db incidentId moderatorId status note now
          ip ua).1.auditLogs =
        db.auditLogs ++
          [decisionAuditLog moderatorId status note incident.id ip ua] ∧
      (applyUpdateIncidentStatus db incidentId moderatorId status note now
          ip ua).1.notifications.getLast? =
        some (publisherStatusNotification incident status note) ∧
      (publisherStatusNotification incident status note).userId =
        incident.publisherId ∧
      credibilityOf (applyUpdateIncidentStatus db incidentId moderatorId
          status note now ip ua).1.users incident.publisherId =
        (credibilityOf db.users incident.publisherId).map
          (fun c => c + credibilityDelta status)) ∧
    (∀ (db : DB) (reportId reviewerId status : String) (note : Option String)
        (now : Nat) (report : Report) (incident : Incident),
      (["REVIEWED", "ACTION_TAKEN", "DISMISSED"].contains status) = true →
      db.reports.find? (fun r => r.id == reportId) = some report →
      db.incidents.find? (fun i => i.id == report.incidentId) =
        some incident →
      ∃ db', reviewReport db reportId reviewerId status note true now =
          .ok db' ∧
        ((db'.incidents.find? (fun i => i.id == incident.id)).map
          (fun i => i.status)) = some "TAKEN_DOWN" ∧
        db'.auditLogs = db.auditLogs ∧
        db'.users = db.users ∧
        db'.notifications = db.notifications ++
          [{ userId := incident.publisherId
             ntype := "INCIDENT_REPORTED"
             title := "Incident Taken Down"
             message := "Your incident \"" ++ incident.title ++
               "\" was taken down due to policy violation."
             dataIncidentId := none }]) := by
  refine ⟨?_, ?_, ?_, ?_⟩
  · intro db incidentId moderatorId status note now ip ua
    by_cases hc : (["VERIFIED", "REJECTED", "TAKEN_DOWN"].contains status) = true
    · cases hfind : db.incidents.find? (fun i => i.id == incidentId) with
      | none =>
        simp only [applyUpdateIncidentStatus, updateIncidentStatus]
        rw [if_neg (not_not_intro hc)]
        simp [hfind]
      | some inc =>
        simp only [applyUpdateIncidentStatus, updateIncidentStatus]
        rw [if_neg (not_not_intro hc)]
        simp only [hfind]
        exact iff_of_true (by trivial) ⟨hc, by trivial⟩
    · simp only [applyUpdateIncidentStatus, updateIncidentStatus]
      rw [if_pos hc]
      refine iff_of_false (by simp) ?_
      intro h
      exact hc h.1
  · intro db incidentId moderatorId status note now ip ua hne
    by_cases hc : (["VERIFIED", "REJECTED", "TAKEN_DOWN"].contains status) = true
    · cases hfind : db.incidents.find? (fun i => i.id == incidentId) with
      | none =>
        simp only [applyUpdateIncidentStatus, updateIncidentStatus]
        rw [if_neg (not_not_intro hc)]
        simp [hfind]
      | some inc =>
        simp only [applyUpdateIncidentStatus, updateIncidentStatus] at hne
        rw [if_neg (not_not_intro hc)] at hne
        simp [hfind] at hne
    · simp only [applyUpdateIncidentStatus, updateIncidentStatus]
      rw [if_pos hc]
  · intro db incidentId moderatorId status note now ip ua incident hfind hc
    simp only [applyUpdateIncidentStatus, updateIncidentStatus]
    rw [if_neg (not_not_intro hc)]
    simp only [hfind]
    refine ⟨by trivial, ?_, by trivial, ?_⟩
    · show (db.notifications ++ stationNotifications db incident status ++
        [publisherStatusNotification incident status note]).getLast? = _
      rw [List.getLast?_concat]
    · exact credibilityOf_moderatedUsers db.users incident.publisherId status
        (statusCasesOfContains hc)
  · intro db reportId reviewerId status note now report incident hc hfindR hfindI
    have heq : incident.id = report.incidentId := by
      have := List.find?_some hfindI
      simpa using this
    have hfindI2 : db.incidents.find? (fun i => i.id == incident.id) =
        some incident := by rw [heq]; exact hfindI
    simp only [reviewReport]
    rw [if_neg (not_not_intro hc)]
    simp only [hfindR, hfindI]
    refine ⟨_, rfl, ?_, rfl, rfl, rfl⟩
    have hres : (db.incidents.map (fun i =>
        if i.id == incident.id then
          { i with
            status := "TAKEN_DOWN"
            verificationNote := some (strOr note "Taken down due to reports")
            verifiedBy := some reviewerId
            verifiedAt := some now }
        else i)).find? (fun i => i.id == incident.id) =
      (db.incidents.find? (fun i => i.id == incident.id)).map (fun i =>
        { i with
          status := "TAKEN_DOWN"
          verificationNote := some (strOr note "Taken down due to reports")
          verifiedBy := some reviewerId
          verifiedAt := some now }) :=
      find?_map_incidents db.incidents incident.id _ (fun i => rfl)
    show Option.map (fun i => i.status) ((db.incidents.map (fun i =>
        if i.id == incident.id then
          { i with
            status := "TAKEN_DOWN"
            verificationNote := some (strOr note "Taken down due to reports")
            verifiedBy := some reviewerId
            verifiedAt := some now }
        else i)).find? (fun i => i.id == incident.id)) = some "TAKEN_DOWN"
    rw [hres, hfindI2]
    rfl

/-- A verified incident that citizens have complained about. -/
def c3incident : Incident :=
  { id := "i1", title := "t", description := "d", category := "OTHER"
    latitude := 0, longitude := 0, city := none, policeStationId := none
    status := "VERIFIED", verificationNote := none, verifiedAt := none
    verifiedBy := none, publisherId := "u1", publisherBadge := "CITIZEN"
    viewCount := 0, createdAt := 0 }

/-- A pending citizen complaint against that incident. -/
def c3report : Report :=
  { id := "r1", incidentId := "i1", reporterId := "u2", status := "PENDING"
    reviewNote := none, reviewedById := none, reviewedAt := none }

/-- A store holding the complained-about incident and its complaint. -/
def c3db : DB :=
  { users := [{ id := "u1", role := "CITIZEN", isActive := true
                credibilityScore := 50, policeStationId := none }]
    incidents := [c3incident]
    reports := [c3report]
    policeStations := [], notifications := [], auditLogs := []
    postTrackers := [] }

/-- Counterexample to claim C3 as stated: a moderator acts on a citizen
complaint with `takeDownIncident`, the incident's status moves to
`TAKEN_DOWN`, yet the audit trail stays empty — the cascaded takedown does
not produce the audit entry of the side-effect bundle. -/
theorem C3_counterexample_cascade_no_audit :
    ((reviewReport c3db "r1" "m1" "ACTION_TAKEN" none true 0).toOption.map
      (fun db' => (db'.incidents.map (fun i => i.status),
        db'.auditLogs.length))) = some (["TAKEN_DOWN"], 0) := rfl

/-- Witness for the amended C3: the cascade at a concrete store succeeds,
moves the incident to `TAKEN_DOWN`, notifies the publisher, and appends no
audit entry. -/
theorem C3_side_effects_iff_accepted_witness :
    ∃ db', reviewReport c3db "r1" "m1" "REVIEWED" none true 0 = .ok db' ∧
      ((db'.incidents.find? (fun i => i.id == c3incident.id)).map
        (fun i => i.status)) = some "TAKEN_DOWN" ∧
      db'.auditLogs = c3db.auditLogs ∧
      db'.users = c3db.users ∧
      db'.notifications = c3db.notifications ++
        [{ userId := c3incident.publisherId
           ntype := "INCIDENT_REPORTED"
           title := "Incident Taken Down"
           message := "Your incident \"" ++ c3incident.title ++
             "\" was taken down due to policy violation."
           dataIncidentId := none }] :=
  C3_side_effects_iff_accepted.2.2.2 c3db "r1" "m1" "REVIEWED" none 0
    c3report c3incident (by decide) rfl rfl

/-- A stored incident still awaiting moderation. -/
def c2incident : Incident :=
  { id := "i2", title := "t", description := "d", category := "OTHER"
    latitude := 0, longitude := 0, city := none, policeStationId := none
    status := "SUBMITTED", verificationNote := none, verifiedAt := none
    verifiedBy := none, publisherId := "u1", publisherBadge := "CITIZEN"
    viewCount := 0, createdAt := 0 }

/-- A store holding one non-verified incident. -/
def c2db : DB :=
  { users := [{ id := "u1", role := "CITIZEN", isActive := true
                credibilityScore := 50, policeStationId := none }]
    incidents := [c2incident]
    reports := [], policeStations := [], notifications := []
    auditLogs := [], postTrackers := [] }

/-- Claim C2 fails on the code: the public feed builds its filter as
`status: status || 'VERIFIED'` without validating the requested status or
consulting the requester, so an anonymous request with `?status=SUBMITTED`
receives a non-`VERIFIED` report that belongs to another publisher —
contradicting the handler's own comment ("only show verified incidents to
public") and the spec's visibility rule. -/
theorem C2_feed_leaks_unverified_to_anonymous :
    c2incident.status = "SUBMITTED" ∧
    getIncidentsFeed c2db none
      { page := none, limit := none, category := none
        status := some "SUBMITTED", city := none } = [c2incident] := by
  refine ⟨rfl, ?_⟩
  simp [getIncidentsFeed, c2db, c2incident, feedWhere, strOr, natOr]

/-- Invariant of the strict-improvement scan: the result never exceeds the
running best or any scanned distance, and it is either the unchanged seed or
the first strictly-closer station (every station before it, and the seed,
being strictly farther). -/
theorem nearestScan_spec (lat lng : ℝ) :
    ∀ (rest : List PoliceStation) (best : PoliceStation) (bestDist : ℝ),
      ((nearestScan lat lng best bestDist rest).2 ≤ bestDist ∧
        ∀ s ∈ rest, (nearestScan lat lng best bestDist rest).2 ≤
          calculateDistance lat lng s.latitude s.longitude) ∧
      (((nearestScan lat lng best bestDist rest).1 = best ∧
          (nearestScan lat lng best bestDist rest).2 = bestDist) ∨
        ((nearestScan lat lng best bestDist rest).2 =
            calculateDistance lat lng
              (nearestScan lat lng best bestDist rest).1.latitude
              (nearestScan lat lng best bestDist rest).1.longitude ∧
          ∃ l₁ l₂, rest = l₁ ++ (nearestScan lat lng best bestDist rest).1 :: l₂ ∧
            (nearestScan lat lng best bestDist rest).2 < bestDist ∧
            ∀ s ∈ l₁, (nearestScan lat lng best bestDist rest).2 <
              calculateDistance lat lng s.latitude s.longitude)) := by
  intro rest
  induction rest with
  | nil =>
    intro best bestDist
    refine ⟨⟨le_refl _, ?_⟩, Or.inl ⟨rfl, rfl⟩⟩
    intro s hs
    cases hs
  | cons s rest ih =>
    intro best bestDist
    simp only [nearestScan]
    by_cases h : calculateDistance lat lng s.latitude s.longitude < bestDist
    · rw [if_pos h]
      obtain ⟨⟨h1, h2⟩, h3⟩ :=
        ih s (calculateDistance lat lng s.latitude s.longitude)
      refine ⟨⟨le_of_lt (lt_of_le_of_lt h1 h), ?_⟩, ?_⟩
      · intro x hx
        rcases List.mem_cons.mp hx with rfl | hx
        · exact h1
        · exact h2 x hx
      · rcases h3 with ⟨hb, hd⟩ | ⟨hd, l₁, l₂, hsplit, hlt, hall⟩
        · right
          refine ⟨by rw [hb, hd], [], rest, by rw [hb]; rfl, ?_, ?_⟩
          · rw [hd]; exact h
          · intro x hx; cases hx
        · right
          refine ⟨hd, s :: l₁, l₂,
            by rw [List.cons_append]; exact congrArg (List.cons s) hsplit,
            lt_trans hlt h, ?_⟩
          intro x hx
          rcases List.mem_cons.mp hx with rfl | hx
          · exact hlt
          · exact hall x hx
    · rw [if_neg h]
      rw [not_lt] at h
      obtain ⟨⟨h1, h2⟩, h3⟩ := ih best bestDist
      refine ⟨⟨h1, ?_⟩, ?_⟩
      · intro x hx
        rcases List.mem_cons.mp hx with rfl | hx
        · exact le_trans h1 h
        · exact h2 x hx
      · rcases h3 with hleft | ⟨hd, l₁, l₂, hsplit, hlt, hall⟩
        · exact Or.inl hleft
        · right
          refine ⟨hd, s :: l₁, l₂,
            by rw [List.cons_append]; exact congrArg (List.cons s) hsplit,
            hlt, ?_⟩
          intro x hx
          rcases List.mem_cons.mp hx with rfl | hx
          · exact lt_of_lt_of_le hlt h
          · exact hall x hx

/-- Claim C6: the resolver returns `none` exactly when no active station
exists; otherwise it returns an active station of the candidate list whose
haversine distance (Earth radius 6371 km, degrees to radians) to the
coordinate is minimal over all active stations, paired with that minimal
distance, and ties go to the first-encountered station: every active
station listed before the returned one is strictly farther. -/
theorem C6_findNearestPoliceStation_spec (lat lng : ℝ)
    (stations : List PoliceStation) :
    (findNearestPoliceStation lat lng stations = none ↔
      stations.filter (fun s => s.isActive) = []) ∧
    ∀ r, findNearestPoliceStation lat lng stations = some r →
      r.1 ∈ stations.filter (fun s => s.isActive) ∧
      r.1.isActive = true ∧
      r.2 = calculateDistance lat lng r.1.latitude r.1.longitude ∧
      (∀ s ∈ stations.filter (fun s => s.isActive),
        r.2 ≤ calculateDistance lat lng s.latitude s.longitude) ∧
      ∃ l₁ l₂, stations.filter (fun s => s.isActive) = l₁ ++ r.1 :: l₂ ∧
        ∀ s ∈ l₁, r.2 < calculateDistance lat lng s.latitude s.longitude := by
  cases hfil : stations.filter (fun s => s.isActive) with
  | nil =>
    constructor
    · simp only [findNearestPoliceStation, hfil]
    · intro r hr
      simp only [findNearestPoliceStation, hfil] at hr
      cases hr
  | cons s0 rest =>
    constructor
    · simp only [findNearestPoliceStation, hfil]
      constructor
      · intro h; cases h
      · intro h; cases h
    · intro r hr
      simp only [findNearestPoliceStation, hfil] at hr
      have hr' := Option.some.inj hr
      obtain ⟨⟨h1, h2⟩, h3⟩ := nearestScan_spec lat lng rest s0
        (calculateDistance lat lng s0.latitude s0.longitude)
      rw [hr'] at h1 h2 h3
      have hmem : r.1 ∈ s0 :: rest := by
        rcases h3 with ⟨hb, _⟩ | ⟨_, l₁, l₂, hsplit, _, _⟩
        · rw [hb]; exact List.mem_cons_self s0 rest
        · rw [hsplit]
          exact List.mem_cons_of_mem s0 (List.mem_append_right l₁
            (List.mem_cons_self r.1 l₂))
      have hmemf : r.1 ∈ stations.filter (fun s => s.isActive) := by
        rw [hfil]; exact hmem
      refine ⟨hmem, (List.mem_filter.mp hmemf).2, ?_, ?_, ?_⟩
      · rcases h3 with ⟨hb, hd⟩ | ⟨hd, _⟩
        · rw [hd, hb]
        · exact hd
      · intro s hs
        rcases List.mem_cons.mp hs with rfl | hs
        · exact h1
        · exact h2 s hs
      · rcases h3 with ⟨hb, hd⟩ | ⟨hd, l₁, l₂, hsplit, hlt, hall⟩
        · refine ⟨[], rest, ?_, ?_⟩
          · rw [hb]; rfl
          · intro x hx; cases hx
        · refine ⟨s0 :: l₁, l₂, ?_, ?_⟩
          · rw [List.cons_append]
            exact congrArg (List.cons s0) hsplit
          · intro x hx
            rcases List.mem_cons.mp hx with rfl | hx
            · exact hlt
            · exact hall x hx

/-- An active station at the origin. -/
def statA : PoliceStation :=
  { id := "p1", name := "A", latitude := 0, longitude := 0, isActive := true }

/-- Witness for C6 on the one-station candidate list. -/
theorem C6_findNearestPoliceStation_spec_witness :
    (statA, calculateDistance 0 0 statA.latitude statA.longitude).1 ∈
      [statA].filter (fun s => s.isActive) ∧
    statA.isActive = true ∧
    (statA, calculateDistance 0 0 statA.latitude statA.longitude).2 =
      calculateDistance 0 0 statA.latitude statA.longitude ∧
    (∀ s ∈ [statA].filter (fun s => s.isActive),
      (statA, calculateDistance 0 0 statA.latitude statA.longitude).2 ≤
        calculateDistance 0 0 s.latitude s.longitude) ∧
    ∃ l₁ l₂, [statA].filter (fun s => s.isActive) =
        l₁ ++ (statA, calculateDistance 0 0 statA.latitude statA.longitude).1 :: l₂ ∧
      ∀ s ∈ l₁, (statA, calculateDistance 0 0 statA.latitude statA.longitude).2 <
        calculateDistance 0 0 s.latitude s.longitude :=
  (C6_findNearestPoliceStation_spec 0 0 [statA]).2
    (statA, calculateDistance 0 0 statA.latitude statA.longitude) rfl

/-- Appending one row to a list with no match: the first match of the
combined list is decided by the new row alone. -/
theorem trk_find?_append (l : List PostTracker) (p : PostTracker → Bool)
    (x : PostTracker) (h : l.find? p = none) :
    (l ++ [x]).find? p = if p x then some x else none := by
  rw [List.find?_append, h]
  cases hx : p x <;> simp [List.find?, hx]

/-- A conditional map whose condition matches no element of the list is the
identity on it. -/
theorem trk_map_untouched (l : List PostTracker) (p : PostTracker → Bool)
    (f : PostTracker → PostTracker) (h : l.find? p = none) :
    l.map (fun t => if p t then f t else t) = l := by
  have hall := List.find?_eq_none.mp h
  conv_rhs => rw [← List.map_id l]
  exact List.map_congr_left (fun t ht => by rw [if_neg (hall t ht)]; rfl)

/-- Claim C9: the daily submission quota uses ceiling 5 for trust tier
`VERIFIED_REPORTER` and ceiling 2 for everyone else; a `CITIZEN` publisher
with no tracker row for the day gets two successful submissions — each
appending exactly one incident — and the third submission of the same day
fails with 429 before any incident row is created. -/
theorem C9_daily_post_quota :
    ((∀ (trackers : List PostTracker) (uid : String) (today : Nat),
      checkPostLimit trackers uid "VERIFIED_REPORTER" today = none ↔
        ((trackers.find? (fun t => t.userId == uid && today ≤ t.date)).map
          (fun t => t.postCount)).getD 0 < verifiedReporterDailyLimit) ∧
      verifiedReporterDailyLimit = 5 ∧ citizenDailyLimit = 2) ∧
    (∀ (db : DB) (user : AuthUser) (d₁ d₂ d₃ : IncidentDraft)
        (today n₁ n₂ n₃ : Nat),
      user.role = "CITIZEN" →
      db.postTrackers.find?
        (fun t => t.userId == user.id && today ≤ t.date) = none →
      ∃ db₁ db₂, createIncident db user d₁ today n₁ = .ok db₁ ∧
        createIncident db₁ user d₂ today n₂ = .ok db₂ ∧
        db₁.incidents = db.incidents ++ [submittedIncident db user d₁ n₁] ∧
        db₂.incidents = db₁.incidents ++ [submittedIncident db₁ user d₂ n₂] ∧
        createIncident db₂ user d₃ today n₃ =
          .error ⟨"Daily posting limit reached", 429⟩) := by
  constructor
  · refine ⟨?_, rfl, rfl⟩
    intro trackers uid today
    simp only [checkPostLimit]
    rw [if_pos trivial]
    by_cases h : verifiedReporterDailyLimit ≤
        ((trackers.find? (fun t => t.userId == uid && today ≤ t.date)).map
          (fun t => t.postCount)).getD 0
    · rw [if_pos h]
      simp [Nat.not_lt.mpr h]
    · rw [if_neg h]
      simp [Nat.lt_of_not_le h]
  · intro db user d₁ d₂ d₃ today n₁ n₂ n₃ hrole hnone
    have hallp := List.find?_eq_none.mp hnone
    have h2 : db.postTrackers.find?
        (fun t => t.userId == user.id && t.date == today) = none := by
      apply List.find?_eq_none.mpr
      intro t ht hpt
      apply hallp t ht
      simp only [Bool.and_eq_true, beq_iff_eq, decide_eq_true_eq] at hpt ⊢
      exact ⟨hpt.1, le_of_eq hpt.2.symm⟩
    have hc1 : checkPostLimit db.postTrackers user.id user.role today =
        none := by
      simp [checkPostLimit, hnone, hrole, citizenDailyLimit,
        verifiedReporterDailyLimit]
    have hinc1 : incrementPostCount db.postTrackers user.id today =
        db.postTrackers ++ [⟨user.id, today, 1⟩] := by
      simp only [incrementPostCount, h2]
      rfl
    have hf1 : (db.postTrackers ++ [(⟨user.id, today, 1⟩ : PostTracker)]).find?
        (fun t => t.userId == user.id && today ≤ t.date) =
        some ⟨user.id, today, 1⟩ := by
      rw [trk_find?_append _ _ _ hnone]
      simp
    have hc2 : checkPostLimit
        (db.postTrackers ++ [(⟨user.id, today, 1⟩ : PostTracker)])
        user.id user.role today = none := by
      simp [checkPostLimit, hf1, hrole, citizenDailyLimit,
        verifiedReporterDailyLimit]
    have hf2 : (db.postTrackers ++ [(⟨user.id, today, 1⟩ : PostTracker)]).find?
        (fun t => t.userId == user.id && t.date == today) =
        some ⟨user.id, today, 1⟩ := by
      rw [trk_find?_append _ _ _ h2]
      simp
    have hmap : db.postTrackers.map (fun t =>
        if t.userId == user.id && t.date == today then
          { t with postCount := t.postCount + 1 }
        else t) = db.postTrackers :=
      trk_map_untouched db.postTrackers
        (fun t => t.userId == user.id && t.date == today)
        (fun t => { t with postCount := t.postCount + 1 }) h2
    have hinc2 : incrementPostCount
        (db.postTrackers ++ [(⟨user.id, today, 1⟩ : PostTracker)])
        user.id today =
        db.postTrackers ++ [⟨user.id, today, 2⟩] := by
      simp only [incrementPostCount, hf2, Option.isSome_some, if_true]
      rw [List.map_append, hmap]
      simp
    have hf3 : (db.postTrackers ++ [(⟨user.id, today, 2⟩ : PostTracker)]).find?
        (fun t => t.userId == user.id && today ≤ t.date) =
        some ⟨user.id, today, 2⟩ := by
      rw [trk_find?_append _ _ _ hnone]
      simp
    have hc3 : checkPostLimit
        (db.postTrackers ++ [(⟨user.id, today, 2⟩ : PostTracker)])
        user.id user.role today =
        some ⟨"Daily posting limit reached", 429⟩ := by
      simp [checkPostLimit, hf3, hrole, citizenDailyLimit,
        verifiedReporterDailyLimit]
    refine ⟨{ db with
        incidents := db.incidents ++ [submittedIncident db user d₁ n₁]
        postTrackers := db.postTrackers ++ [⟨user.id, today, 1⟩] },
      { db with
        incidents := (db.incidents ++ [submittedIncident db user d₁ n₁]) ++
          [submittedIncident { db with
            incidents := db.incidents ++ [submittedIncident db user d₁ n₁]
            postTrackers := db.postTrackers ++ [⟨user.id, today, 1⟩] }
            user d₂ n₂]
        postTrackers := db.postTrackers ++ [⟨user.id, today, 2⟩] },
      ?_, ?_, rfl, rfl, ?_⟩
    · simp only [createIncident, hc1]
      rw [hinc1]
    · simp only [createIncident, hc2, hinc2]
    · simp only [createIncident, hc3]

/-- A citizen-tier requester. -/
def cit9 : AuthUser := { id := "u9", role := "CITIZEN" }

/-- A concrete incident draft. -/
def d9 : IncidentDraft :=
  { id := "n1", title := "t", description := "d", category := "OTHER"
    latitude := 0, longitude := 0, city := none }

/-- Witness for C9 starting from the empty store. -/
theorem C9_daily_post_quota_witness :
    ∃ db₁ db₂, createIncident emptyDB cit9 d9 0 0 = .ok db₁ ∧
      createIncident db₁ cit9 d9 0 0 = .ok db₂ ∧
      db₁.incidents = emptyDB.incidents ++ [submittedIncident emptyDB cit9 d9 0] ∧
      db₂.incidents = db₁.incidents ++ [submittedIncident db₁ cit9 d9 0] ∧
      createIncident db₂ cit9 d9 0 0 =
        .error ⟨"Daily posting limit reached", 429⟩ :=
  C9_daily_post_quota.2 emptyDB cit9 d9 d9 d9 0 0 0 0 rfl rfl
